import Mathlib

/-!
Verification of the task eligibility and prioritization engine of the
Majordome Foyer repository (src/API/serveur_majordome.py), against its
natural-language specification.

The engine is shallowly embedded: the row dictionary handed to
`_analyser_tache` becomes the structure `Tache` (fields that may be SQL
NULL / Python None are `Option`s), the weather context dictionary becomes
`ContexteMeteo`, and the verdict dictionary becomes `Resultat`.  Python
integers are modelled as `Int`; weather magnitudes (floats in the source)
are modelled as `ℚ`, which is faithful for the comparison thresholds and
truthiness tests the source performs on them.
-/

/-- A catalog row as consumed by `_analyser_tache`: the columns selected by
the audit SQL query.  `active` comes from a LEFT JOIN and can be NULL, and
the Python gate is `tache["active"] is False`, so it is an `Option Bool`.
`intervalle`, `jours_ecoules`, `priorite_base`, `priorite_hygiene` and
`jour_semaine` can likewise be None. -/
structure Tache where
  nom : String
  active : Option Bool
  eviter_pluie : Bool
  eviter_vent : Bool
  eviter_neige : Bool
  eviter_gel : Bool
  eviter_nuit : Bool
  jour_semaine : Option String
  intervalle : Option Int
  jours_ecoules : Option Int
  priorite_base : Option Int
  priorite_hygiene : Option Int
deriving Repr, DecidableEq

/-- The weather context dictionary `{"pluie": _, "vent": _, "gel": _}` built
by `infos_tache` / `audit_global` (the purely descriptive "desc" entry is
not read by the engine and is omitted). -/
structure ContexteMeteo where
  pluie : Bool
  vent : Bool
  gel : Bool
deriving Repr, DecidableEq

/-- The verdict dictionary returned by `_analyser_tache`:
`{"visible": _, "score": _, "raison": _, "echeance": _}`. -/
structure Resultat where
  visible : Bool
  score : Int
  raison : String
  echeance : String
deriving Repr, DecidableEq

/-- `JOURS_MAP = {"lundi": 0, ..., "dimanche": 6}` from the source. -/
def JOURS_MAP : List (String × Nat) :=
  [("lundi", 0), ("mardi", 1), ("mercredi", 2), ("jeudi", 3),
   ("vendredi", 4), ("samedi", 5), ("dimanche", 6)]

/-- Python `str.lower()` (ASCII case mapping, which covers every key of
`JOURS_MAP` and the winter-gate keywords). -/
def pyLower (s : String) : String :=
  String.mk (s.toList.map Char.toLower)

/-- Python `str.capitalize()`: first character upper-cased, the rest
lower-cased (ASCII case mapping, which covers every key of `JOURS_MAP`). -/
def pyCapitalize (s : String) : String :=
  match s.toList with
  | [] => ""
  | c :: cs => String.mk (c.toUpper :: cs.map Char.toLower)

/-- Python `str(x)` for an optional integer (an f-string renders None as
the text "None"). -/
def pyStrOpt : Option Int → String
  | none => "None"
  | some n => toString n

/-- Does the character list begin with the given character list? -/
def listeCommencePar : List Char → List Char → Bool
  | [], _ => true
  | _ :: _, [] => false
  | a :: as, b :: bs => a == b && listeCommencePar as bs

/-- Does the character list contain the given character list as a
contiguous run? -/
def listeContient (aiguille : List Char) : List Char → Bool
  | [] => listeCommencePar aiguille []
  | b :: bs => listeCommencePar aiguille (b :: bs) || listeContient aiguille bs

/-- The Python substring test `aiguille in meule`. -/
def estSousChaine (aiguille meule : String) : Bool :=
  listeContient aiguille.toList meule.toList

/-- Branch 6 of `_analyser_tache` (lines 141-153): one-off task scoring.
`priorite_base` / `priorite_hygiene` are already resolved with the
Python `or 0` default. -/
def cas_ponctuel (tache : Tache) (priorite_base priorite_hygiene : Int) : Resultat :=
  match tache.jours_ecoules with
  | none =>
    { visible := true
      score := priorite_base + priorite_hygiene * 10
      raison := "Jamais fait (Ponctuel)"
      echeance := "Dès que possible" }
  | some _ =>
    { visible := true
      score := 900
      raison := "Ponctuelle réactivée"
      echeance := "Inconnue" }

/-- Branch 7 of `_analyser_tache` (lines 155-176): recurring task scoring
for a task whose `intervalle` is the non-null, non-zero `intervalle`
argument.  A missing history defaults to the sentinel 999 days. -/
def cas_recurrent (tache : Tache) (intervalle priorite_base priorite_hygiene : Int) : Resultat :=
  if tache.jours_ecoules = some 0 then
    { visible := false
      score := 0
      raison := "Déjà fait aujourd\x27hui."
      echeance := "Dans " ++ toString intervalle ++ " jours" }
  else
    let jours_effectifs : Int := tache.jours_ecoules.getD 999
    let retard : Int := jours_effectifs - intervalle
    if retard < 0 then
      { visible := false
        score := 0
        raison := "À jour (Fait il y a " ++ pyStrOpt tache.jours_ecoules ++ "j)."
        echeance := "Dans " ++ toString retard.natAbs ++ " jours" }
    else
      { visible := true
        score := priorite_base + priorite_hygiene * 10 + retard * 5
        raison := "En retard de " ++ toString retard ++ " jours."
        echeance := "Maintenant" }

/-- Branches 4-7 of `_analyser_tache` (lines 117-176): the weekday pin and,
when no pin applies, the one-off / recurring dispatch on `intervalle`. -/
def cas_jour_ou_intervalle (tache : Tache) (jour_actuel_index : Nat) : Resultat :=
  let jour_cible_str := pyLower (tache.jour_semaine.getD "")
  match JOURS_MAP.lookup jour_cible_str with
  | some jour_cible_idx =>
    if jour_cible_idx ≠ jour_actuel_index then
      let delta0 : Int := ((jour_cible_idx : Int) - (jour_actuel_index : Int)) % 7
      let delta : Int := if delta0 = 0 then 7 else delta0
      { visible := false
        score := 0
        raison := "Planifié pour " ++ pyCapitalize jour_cible_str ++ "."
        echeance := "Dans " ++ toString delta ++ " jours (" ++ jour_cible_str ++ ")" }
    else
      { visible := true
        score := 1000
        raison := "C\x27est le jour J (" ++ jour_cible_str ++ ") !"
        echeance := "Aujourd\x27hui" }
  | none =>
    let priorite_base := tache.priorite_base.getD 0
    let priorite_hygiene := tache.priorite_hygiene.getD 0
    match tache.intervalle with
    | none => cas_ponctuel tache priorite_base priorite_hygiene
    | some i =>
      if i = 0 then cas_ponctuel tache priorite_base priorite_hygiene
      else cas_recurrent tache i priorite_base priorite_hygiene

/-- `_analyser_tache` (lines 73-176): the activation, night, winter and
weather gates in source order, then the weekday / interval logic. -/
def analyser_tache (tache : Tache) (contexte_meteo : ContexteMeteo)
    (jour_actuel_index heure_actuelle mois_actuel : Nat) : Resultat :=
  if tache.active = some false then
    { visible := false, score := 0
      raison := "Tâche ponctuelle en sommeil (déjà faite)."
      echeance := "Sur demande" }
  else if tache.eviter_nuit = true ∧ (20 ≤ heure_actuelle ∨ heure_actuelle < 7) then
    { visible := false, score := 0
      raison := "Reporté : Il fait nuit."
      echeance := "Demain matin" }
  else if ([12, 1, 2].contains mois_actuel = true)
      ∧ (estSousChaine "arros" (pyLower tache.nom) = true
          ∨ estSousChaine "tondre" (pyLower tache.nom) = true)
      ∧ tache.eviter_gel = true then
    { visible := false, score := 0
      raison := "Reporté : Saison hivernale."
      echeance := "Printemps" }
  else if tache.eviter_pluie = true ∧ contexte_meteo.pluie = true then
    { visible := false, score := 0
      raison := "Reporté : Il pleut."
      echeance := "Dès qu\x27il fait beau" }
  else if tache.eviter_vent = true ∧ contexte_meteo.vent = true then
    { visible := false, score := 0
      raison := "Reporté : Trop de vent."
      echeance := "Inconnue" }
  else if tache.eviter_gel = true ∧ contexte_meteo.gel = true then
    { visible := false, score := 0
      raison := "Reporté : Risque de gel."
      echeance := "Inconnue" }
  else
    cas_jour_ou_intervalle tache jour_actuel_index

/-- The task passes the activation, night, winter and weather gates: none
of the six early-return conditions of `analyser_tache` holds. -/
def passe_les_portes (tache : Tache) (contexte_meteo : ContexteMeteo)
    (heure_actuelle mois_actuel : Nat) : Prop :=
  ¬ (tache.active = some false)
  ∧ ¬ (tache.eviter_nuit = true ∧ (20 ≤ heure_actuelle ∨ heure_actuelle < 7))
  ∧ ¬ (([12, 1, 2].contains mois_actuel = true)
        ∧ (estSousChaine "arros" (pyLower tache.nom) = true
            ∨ estSousChaine "tondre" (pyLower tache.nom) = true)
        ∧ tache.eviter_gel = true)
  ∧ ¬ (tache.eviter_pluie = true ∧ contexte_meteo.pluie = true)
  ∧ ¬ (tache.eviter_vent = true ∧ contexte_meteo.vent = true)
  ∧ ¬ (tache.eviter_gel = true ∧ contexte_meteo.gel = true)

instance (tache : Tache) (contexte_meteo : ContexteMeteo) (heure_actuelle mois_actuel : Nat) :
    Decidable (passe_les_portes tache contexte_meteo heure_actuelle mois_actuel) := by
  unfold passe_les_portes
  infer_instance

theorem portes_franchies (tache : Tache) (contexte_meteo : ContexteMeteo)
    (jour_actuel_index heure_actuelle mois_actuel : Nat)
    (h : passe_les_portes tache contexte_meteo heure_actuelle mois_actuel) :
    analyser_tache tache contexte_meteo jour_actuel_index heure_actuelle mois_actuel
      = cas_jour_ou_intervalle tache jour_actuel_index := by
  obtain ⟨h0, h1, h2, h3, h4, h5⟩ := h
  unfold analyser_tache
  rw [if_neg h0, if_neg h1, if_neg h2, if_neg h3, if_neg h4, if_neg h5]

/-- A calm context: no rain, no wind, no frost. -/
def meteoCalme : ContexteMeteo := { pluie := false, vent := false, gel := false }

/-- The Scenario A task: recurring every 7 days, hygiene priority 4, base
priority 50, active, no avoidance flags, never completed. -/
def tacheScenarioA : Tache :=
  { nom := "nettoyer la hotte"
    active := some true
    eviter_pluie := false, eviter_vent := false, eviter_neige := false
    eviter_gel := false, eviter_nuit := false
    jour_semaine := none
    intervalle := some 7
    jours_ecoules := none
    priorite_base := some 50
    priorite_hygiene := some 4 }

/-- C1: a recurring task with interval 7, hygiene priority 4, base 50,
active, no gates tripped and no completion history evaluates to a visible
verdict with score 50 + 4×10 + (999−7)×5 = 5050 and the overdue-by-992-days
reason (the source renders it in French as "En retard de 992 jours."),
because the missing history defaults to the sentinel 999 elapsed days. -/
theorem C1_sentinelle_999 :
    analyser_tache tacheScenarioA meteoCalme 2 12 6
      = { visible := true, score := 5050
          raison := "En retard de 992 jours.", echeance := "Maintenant" } := by
  decide

/-- Raw daily weather values as the endpoints read them: for each key the
expression `(meteo_raw.get(key, [defaut])[0] or defaut)` sees either a
missing key / null element (modelled as `none`) or a number.  Floats in
the source are modelled as `ℚ`. -/
structure MeteoBrute where
  precipitation_sum : Option ℚ
  windspeed_10m_max : Option ℚ
  temperature_2m_min : Option ℚ
deriving DecidableEq

/-- Python `(meteo_raw.get(key, [defaut])[0] or defaut)`: a missing key or
null element yields the default, and — because `0` is falsy in Python —
a present value of exactly 0 is also replaced by the default. -/
def ouDefaut (brut : Option ℚ) (defaut : ℚ) : ℚ :=
  match brut with
  | none => defaut
  | some v => if v = 0 then defaut else v

/-- The context dictionary `{"pluie": pluie > 2.0, "vent": vent > 50.0,
"gel": tmin < 2.0}` built by `infos_tache` (lines 210-214) and
`audit_global` (lines 315-318). -/
def construire_contexte (brute : MeteoBrute) : ContexteMeteo :=
  { pluie := 2 < ouDefaut brute.precipitation_sum 0
    vent := 50 < ouDefaut brute.windspeed_10m_max 0
    gel := ouDefaut brute.temperature_2m_min 10 < 2 }

/-- C3: the claim that `is_freezing ↔ min_temp_c < 2.0`, and in particular
that a reported minimum temperature of exactly 0 yields `is_freezing =
true`, fails on the code: `(... or 10)` treats the falsy value `0` like a
missing reading and substitutes the fair-weather default 10, so a report
of exactly 0 °C — which is below the 2 °C threshold — produces
`gel = false`.  (A genuinely missing summary does degrade to `false`, as
the second half of the claim says.) -/
theorem C3_gel_a_zero :
    (construire_contexte
        { precipitation_sum := some 0, windspeed_10m_max := some 0,
          temperature_2m_min := some 0 }).gel = false
    ∧ (0 : ℚ) < 2
    ∧ (construire_contexte
        { precipitation_sum := none, windspeed_10m_max := none,
          temperature_2m_min := none }).gel = false := by
  refine ⟨by decide, by norm_num, by decide⟩

/-- The Scenario D task: pinned to Friday — the weekday token of the
source for Friday is "vendredi", with `JOURS_MAP` index 4. -/
def tacheVendredi : Tache :=
  { nom := "sortir les poubelles"
    active := some true
    eviter_pluie := false, eviter_vent := false, eviter_neige := false
    eviter_gel := false, eviter_nuit := false
    jour_semaine := some "vendredi"
    intervalle := none
    jours_ecoules := none
    priorite_base := some 50
    priorite_hygiene := some 3 }

/-- C5: the Friday-pinned task (the code uses the Friday token "vendredi",
index 4 in `JOURS_MAP`), with no other gate tripped, evaluates on Friday
(weekday index 4) to visible with score 1000, and on Thursday (index 3)
to not visible with the in-1-days hint (rendered by the source as
"Dans 1 jours (vendredi)"). -/
theorem C5_scenario_vendredi :
    analyser_tache tacheVendredi meteoCalme 4 12 6
      = { visible := true, score := 1000
          raison := "C\x27est le jour J (vendredi) !", echeance := "Aujourd\x27hui" }
    ∧ analyser_tache tacheVendredi meteoCalme 3 12 6
      = { visible := false, score := 0
          raison := "Planifié pour Vendredi."
          echeance := "Dans 1 jours (vendredi)" } := by
  constructor
  · decide
  · decide

/-- C2: for every task whose weekday pin resolves in `JOURS_MAP` and that
passes the sleep, night, winter and weather gates: on the pinned weekday
the verdict is visible with score exactly 1000 (terminal — the full
verdict record is fixed, so no interval scoring contributes); on any other
day the verdict is not visible and the hint names `(target − current) mod
7` days, replaced by 7 when that remainder is 0. -/
theorem C2_epingle_jour (tache : Tache) (meteo : ContexteMeteo)
    (jour heure mois cible : Nat)
    (hportes : passe_les_portes tache meteo heure mois)
    (hpin : JOURS_MAP.lookup (pyLower (tache.jour_semaine.getD "")) = some cible) :
    (cible = jour →
      analyser_tache tache meteo jour heure mois
        = { visible := true, score := 1000
            raison := "C\x27est le jour J (" ++ pyLower (tache.jour_semaine.getD "") ++ ") !"
            echeance := "Aujourd\x27hui" })
    ∧ (cible ≠ jour →
      (analyser_tache tache meteo jour heure mois).visible = false
      ∧ (analyser_tache tache meteo jour heure mois).echeance
          = "Dans "
            ++ toString (if ((cible : Int) - (jour : Int)) % 7 = 0 then (7 : Int)
                          else ((cible : Int) - (jour : Int)) % 7)
            ++ " jours (" ++ pyLower (tache.jour_semaine.getD "") ++ ")") := by
  rw [portes_franchies tache meteo jour heure mois hportes]
  simp only [cas_jour_ou_intervalle, hpin]
  constructor
  · intro heq
    subst heq
    simp
  · intro hne
    rw [if_pos hne]
    exact ⟨rfl, rfl⟩

theorem C2_epingle_jour_witness :
    analyser_tache tacheVendredi meteoCalme 4 12 6
      = { visible := true, score := 1000
          raison := "C\x27est le jour J (vendredi) !", echeance := "Aujourd\x27hui" }
    ∧ (analyser_tache tacheVendredi meteoCalme 0 12 6).visible = false :=
  ⟨(C2_epingle_jour tacheVendredi meteoCalme 4 12 6 4 (by decide) (by decide)).1 rfl,
   ((C2_epingle_jour tacheVendredi meteoCalme 0 12 6 4 (by decide) (by decide)).2
      (by decide)).1⟩

/-- Any task that passes the gates, has no weekday pin and carries a
non-zero interval and a non-zero completion history is scored by the
recurring branch, yielding the not-yet-due or the overdue verdict
according to the sign of `e − I`. -/
theorem analyse_recurrente (tache : Tache) (meteo : ContexteMeteo)
    (jour heure mois : Nat) (I e : Int)
    (hportes : passe_les_portes tache meteo heure mois)
    (hpin : JOURS_MAP.lookup (pyLower (tache.jour_semaine.getD "")) = none)
    (hint : tache.intervalle = some I) (hI : I ≠ 0)
    (hje : tache.jours_ecoules = some e) (he : e ≠ 0) :
    analyser_tache tache meteo jour heure mois
      = if e - I < 0 then
          { visible := false, score := 0
            raison := "À jour (Fait il y a " ++ pyStrOpt tache.jours_ecoules ++ "j)."
            echeance := "Dans " ++ toString (e - I).natAbs ++ " jours" }
        else
          { visible := true
            score := tache.priorite_base.getD 0 + tache.priorite_hygiene.getD 0 * 10
                      + (e - I) * 5
            raison := "En retard de " ++ toString (e - I) ++ " jours."
            echeance := "Maintenant" } := by
  rw [portes_franchies tache meteo jour heure mois hportes]
  simp only [cas_jour_ou_intervalle, hpin, hint]
  rw [if_neg hI]
  have hne0 : ¬ (tache.jours_ecoules = some 0) := by
    rw [hje]
    simp [he]
  simp only [cas_recurrent, if_neg hne0, hje, Option.getD_some]
  rw [if_neg (show ¬ (some e = some (0 : Int)) by simp [he])]

/-- C6: for a recurring task with fixed interval I > 0 that passes the
gates and has no weekday pin, raising `jours_ecoules` from I to I+k
(k > 0) changes the returned score by exactly 5k, and strictly
increases it. -/
theorem C6_monotonie_retard (tache : Tache) (meteo : ContexteMeteo)
    (jour heure mois : Nat) (I k : Int)
    (hI : 0 < I) (hk : 0 < k)
    (hportes : passe_les_portes tache meteo heure mois)
    (hpin : JOURS_MAP.lookup (pyLower (tache.jour_semaine.getD "")) = none)
    (hint : tache.intervalle = some I) :
    (analyser_tache { tache with jours_ecoules := some (I + k) } meteo jour heure mois).score
      = (analyser_tache { tache with jours_ecoules := some I } meteo jour heure mois).score
        + 5 * k
    ∧ (analyser_tache { tache with jours_ecoules := some I } meteo jour heure mois).score
      < (analyser_tache { tache with jours_ecoules := some (I + k) } meteo jour heure mois).score := by
  have h1 := analyse_recurrente { tache with jours_ecoules := some I }
    meteo jour heure mois I I hportes hpin hint (by omega) rfl (by omega)
  have h2 := analyse_recurrente { tache with jours_ecoules := some (I + k) }
    meteo jour heure mois I (I + k) hportes hpin hint (by omega) rfl (by omega)
  rw [if_neg (show ¬ ((I : Int) - I < 0) by omega)] at h1
  rw [if_neg (show ¬ ((I + k : Int) - I < 0) by omega)] at h2
  rw [h1, h2]
  dsimp only
  constructor
  · omega
  · omega

theorem C6_monotonie_retard_witness :
    (analyser_tache { tacheScenarioA with jours_ecoules := some 10 } meteoCalme 2 12 6).score
      = (analyser_tache { tacheScenarioA with jours_ecoules := some 7 } meteoCalme 2 12 6).score
        + 5 * 3
    ∧ (analyser_tache { tacheScenarioA with jours_ecoules := some 7 } meteoCalme 2 12 6).score
      < (analyser_tache { tacheScenarioA with jours_ecoules := some 10 } meteoCalme 2 12 6).score :=
  C6_monotonie_retard tacheScenarioA meteoCalme 2 12 6 7 3
    (by decide) (by decide) (by decide) (by decide) rfl

/-- C7: for a recurring task with interval I that passes the gates and has
no weekday pin, a completion history of exactly I elapsed days (delay 0,
I > 0) gives a visible verdict, while I−1 elapsed days (delay −1, with
I ≥ 2 so the done-today branch is not triggered) gives a non-visible
verdict whose hint is the in-1-days text (rendered "Dans 1 jours"). -/
theorem C7_borne_visibilite (tache : Tache) (meteo : ContexteMeteo)
    (jour heure mois : Nat) (I : Int)
    (hportes : passe_les_portes tache meteo heure mois)
    (hpin : JOURS_MAP.lookup (pyLower (tache.jour_semaine.getD "")) = none)
    (hint : tache.intervalle = some I) :
    (0 < I →
      (analyser_tache { tache with jours_ecoules := some I } meteo jour heure mois).visible
        = true)
    ∧ (2 ≤ I →
      (analyser_tache { tache with jours_ecoules := some (I - 1) } meteo jour heure mois).visible
        = false
      ∧ (analyser_tache { tache with jours_ecoules := some (I - 1) } meteo jour heure mois).echeance
        = "Dans 1 jours") := by
  constructor
  · intro hI
    have h1 := analyse_recurrente { tache with jours_ecoules := some I }
      meteo jour heure mois I I hportes hpin hint (by omega) rfl (by omega)
    rw [if_neg (show ¬ ((I : Int) - I < 0) by omega)] at h1
    rw [h1]
  · intro hI
    have h2 := analyse_recurrente { tache with jours_ecoules := some (I - 1) }
      meteo jour heure mois I (I - 1) hportes hpin hint (by omega) rfl (by omega)
    rw [if_pos (show (I - 1 : Int) - I < 0 by omega)] at h2
    have habs : ((I - 1 : Int) - I).natAbs = 1 := by omega
    rw [habs] at h2
    rw [h2]
    exact ⟨rfl, rfl⟩

theorem C7_borne_visibilite_witness :
    (analyser_tache { tacheScenarioA with jours_ecoules := some 7 } meteoCalme 2 12 6).visible
      = true
    ∧ (analyser_tache { tacheScenarioA with jours_ecoules := some 6 } meteoCalme 2 12 6).visible
      = false :=
  ⟨(C7_borne_visibilite tacheScenarioA meteoCalme 2 12 6 7
      (by decide) (by decide) rfl).1 (by decide),
   ((C7_borne_visibilite tacheScenarioA meteoCalme 2 12 6 7
      (by decide) (by decide) rfl).2 (by decide)).1⟩

/-- C8: an active task with a null or zero interval and a zero-day
completion history (gates passed, no weekday pin) takes the one-off
branch: visible, score 900, reactivated-one-off reason ("Ponctuelle
réactivée").  In particular the already-done-today verdict of the
recurring branch never applies to such a task — the two branches are mutually
exclusive on `intervalle`. -/
theorem C8_ponctuelle_reactivee (tache : Tache) (meteo : ContexteMeteo)
    (jour heure mois : Nat)
    (_hactive : tache.active = some true)
    (hportes : passe_les_portes tache meteo heure mois)
    (hpin : JOURS_MAP.lookup (pyLower (tache.jour_semaine.getD "")) = none)
    (hint : tache.intervalle = none ∨ tache.intervalle = some 0)
    (hje : tache.jours_ecoules = some 0) :
    analyser_tache tache meteo jour heure mois
      = { visible := true, score := 900
          raison := "Ponctuelle réactivée", echeance := "Inconnue" }
    ∧ (analyser_tache tache meteo jour heure mois).raison
        ≠ "Déjà fait aujourd\x27hui." := by
  have hmain : analyser_tache tache meteo jour heure mois
      = { visible := true, score := 900
          raison := "Ponctuelle réactivée", echeance := "Inconnue" } := by
    rw [portes_franchies tache meteo jour heure mois hportes]
    simp only [cas_jour_ou_intervalle, hpin]
    rcases hint with h | h
    · simp [h, cas_ponctuel, hje]
    · simp [h, cas_ponctuel, hje]
  rw [hmain]
  exact ⟨rfl, by decide⟩

/-- The Scenario E task: a completed one-off that the test setup left
active. -/
def tachePonctuelleReactivee : Tache :=
  { nom := "monter une armoire"
    active := some true
    eviter_pluie := false, eviter_vent := false, eviter_neige := false
    eviter_gel := false, eviter_nuit := false
    jour_semaine := none
    intervalle := none
    jours_ecoules := some 0
    priorite_base := some 50
    priorite_hygiene := some 3 }

theorem C8_ponctuelle_reactivee_witness :
    analyser_tache tachePonctuelleReactivee meteoCalme 2 12 6
      = { visible := true, score := 900
          raison := "Ponctuelle réactivée", echeance := "Inconnue" }
    ∧ (analyser_tache tachePonctuelleReactivee meteoCalme 2 12 6).raison
        ≠ "Déjà fait aujourd\x27hui." :=
  C8_ponctuelle_reactivee tachePonctuelleReactivee meteoCalme 2 12 6
    rfl (by decide) (by decide) (Or.inl rfl) rfl

/-- Every verdict is either visible or carries the initial score 0: each
gate and each non-visible terminal branch of `analyser_tache` leaves the
score at its default. -/
theorem visible_ou_score_nul (tache : Tache) (meteo : ContexteMeteo)
    (jour heure mois : Nat) :
    (analyser_tache tache meteo jour heure mois).visible = true
    ∨ (analyser_tache tache meteo jour heure mois).score = 0 := by
  simp only [analyser_tache, cas_jour_ou_intervalle, cas_ponctuel, cas_recurrent]
  repeat' split
  all_goals first | exact Or.inl rfl | exact Or.inr rfl

/-- C10 (implicit): whenever `analyser_tache` returns a non-visible
verdict, its score is exactly 0 — the score initialised to 0 at entry is
never modified on any non-visible path. -/
theorem C10_score_invisible_nul (tache : Tache) (meteo : ContexteMeteo)
    (jour heure mois : Nat)
    (h : (analyser_tache tache meteo jour heure mois).visible = false) :
    (analyser_tache tache meteo jour heure mois).score = 0 := by
  rcases visible_ou_score_nul tache meteo jour heure mois with hv | hs
  · rw [h] at hv
    exact absurd hv (by decide)
  · exact hs

/-- A dormant one-off task: the activation gate returns a non-visible
verdict. -/
def tacheDormante : Tache :=
  { nom := "poser une etagere"
    active := some false
    eviter_pluie := false, eviter_vent := false, eviter_neige := false
    eviter_gel := false, eviter_nuit := false
    jour_semaine := none
    intervalle := none
    jours_ecoules := some 3
    priorite_base := some 50
    priorite_hygiene := some 3 }

theorem C10_score_invisible_nul_witness :
    (analyser_tache tacheDormante meteoCalme 2 12 6).score = 0 :=
  C10_score_invisible_nul tacheDormante meteoCalme 2 12 6 (by decide)

/-- A catalog row as seen by `audit_global`: the analysed task together
with its room name (the only extra column the audit output reads). -/
structure Ligne where
  tache : Tache
  piece : String
deriving Repr, DecidableEq

/-- An entry of the "priorites" list the audit returns (lines 355-361). -/
structure Priorite where
  tache : String
  piece : String
  score : Int
  raison : String
  type : String
deriving Repr, DecidableEq

/-- The output dictionary built for one visible row (lines 355-361). -/
def ligne_en_priorite (ligne : Ligne) (analyse : Resultat) : Priorite :=
  { tache := ligne.tache.nom
    piece := ligne.piece
    score := analyse.score
    raison := analyse.raison
    type := if ligne.tache.intervalle = none then "Ponctuelle" else "Récurrente" }

/-- Lines 348-361 of `audit_global`: analyse every row and keep only the
visible verdicts, in row order. -/
def resultats_visibles (lignes : List Ligne) (meteo : ContexteMeteo)
    (jour heure mois : Nat) : List Priorite :=
  lignes.filterMap fun ligne =>
    let analyse := analyser_tache ligne.tache meteo jour heure mois
    if analyse.visible = true then some (ligne_en_priorite ligne analyse) else none

/-- One step of a stable descending insertion sort on the score: the new
element is placed before the first element whose score is not larger,
hence after every earlier element with an equal score. -/
def insere_par_score (x : Priorite) : List Priorite → List Priorite
  | [] => [x]
  | y :: ys => if x.score < y.score then y :: insere_par_score x ys else x :: y :: ys

/-- Line 363, `resultats.sort(key=lambda x: x["score"], reverse=True)`:
the CPython sort is stable, also with `reverse=True`, and a stable sort
descending on the score is uniquely determined by its input, so this
stable insertion sort computes the same list. -/
def trie_par_score : List Priorite → List Priorite
  | [] => []
  | x :: xs => insere_par_score x (trie_par_score xs)

/-- Line 364 and the final slice: no truncation when the request is
scoped to one room (`filtre_piece`), otherwise the top 10. -/
def audit_priorites (lignes : List Ligne) (meteo : ContexteMeteo)
    (jour heure mois : Nat) (filtre_piece : Bool) : List Priorite :=
  let resultats := trie_par_score (resultats_visibles lignes meteo jour heure mois)
  let limite := if filtre_piece then resultats.length else 10
  resultats.take limite

/-- The ordering relation of the audit output: scores do not increase along the
output list. -/
def ordre_score (a b : Priorite) : Prop := b.score ≤ a.score

theorem mem_insere_par_score (p x : Priorite) (l : List Priorite) :
    p ∈ insere_par_score x l ↔ p = x ∨ p ∈ l := by
  induction l with
  | nil => simp [insere_par_score]
  | cons y ys ih =>
    by_cases hxy : x.score < y.score
    · rw [insere_par_score, if_pos hxy]
      simp only [List.mem_cons, ih]
      tauto
    · rw [insere_par_score, if_neg hxy]
      simp only [List.mem_cons]

theorem insere_par_score_perm (x : Priorite) (l : List Priorite) :
    List.Perm (insere_par_score x l) (x :: l) := by
  induction l with
  | nil => exact List.Perm.refl _
  | cons y ys ih =>
    by_cases hxy : x.score < y.score
    · rw [insere_par_score, if_pos hxy]
      exact (ih.cons y).trans (List.Perm.swap x y ys)
    · rw [insere_par_score, if_neg hxy]

theorem trie_par_score_perm (l : List Priorite) : List.Perm (trie_par_score l) l := by
  induction l with
  | nil => exact List.Perm.refl _
  | cons x xs ih =>
    exact (insere_par_score_perm x (trie_par_score xs)).trans (ih.cons x)

theorem insere_par_score_sorted (x : Priorite) (l : List Priorite)
    (h : List.Sorted ordre_score l) :
    List.Sorted ordre_score (insere_par_score x l) := by
  induction l with
  | nil => simp [insere_par_score]
  | cons y ys ih =>
    rw [List.sorted_cons] at h
    by_cases hxy : x.score < y.score
    · rw [insere_par_score, if_pos hxy, List.sorted_cons]
      refine ⟨?_, ih h.2⟩
      intro b hb
      rcases (mem_insere_par_score b x ys).mp hb with hb | hb
      · subst hb
        exact le_of_lt hxy
      · exact h.1 b hb
    · rw [insere_par_score, if_neg hxy, List.sorted_cons]
      refine ⟨?_, ?_⟩
      · intro b hb
        rcases List.mem_cons.mp hb with hb | hb
        · subst hb
          exact le_of_not_lt hxy
        · exact le_trans (h.1 b hb) (le_of_not_lt hxy)
      · rw [List.sorted_cons]
        exact h

theorem trie_par_score_sorted (l : List Priorite) :
    List.Sorted ordre_score (trie_par_score l) := by
  induction l with
  | nil => simp [trie_par_score]
  | cons x xs ih => exact insere_par_score_sorted x (trie_par_score xs) ih

theorem insere_par_score_filter (x : Priorite) (l : List Priorite) (s : Int) :
    (insere_par_score x l).filter (fun p => p.score = s)
      = (x :: l).filter (fun p => p.score = s) := by
  induction l with
  | nil => rfl
  | cons y ys ih =>
    by_cases hxy : x.score < y.score
    · rw [insere_par_score, if_pos hxy]
      by_cases hx : x.score = s
      · have hy : ¬ (y.score = s) := by omega
        simp [List.filter_cons, hx, hy, ih]
      · simp [List.filter_cons, hx, ih]
    · rw [insere_par_score, if_neg hxy]

theorem trie_par_score_filter (l : List Priorite) (s : Int) :
    (trie_par_score l).filter (fun p => p.score = s)
      = l.filter (fun p => p.score = s) := by
  induction l with
  | nil => rfl
  | cons x xs ih =>
    rw [trie_par_score, insere_par_score_filter]
    simp [List.filter_cons, ih]

/-- A one-off task (never completed, no gates) scoring 50 + 3×10 = 80. -/
def tacheTriA : Tache :=
  { nom := "aspirer"
    active := some true
    eviter_pluie := false, eviter_vent := false, eviter_neige := false
    eviter_gel := false, eviter_nuit := false
    jour_semaine := none
    intervalle := none
    jours_ecoules := none
    priorite_base := some 50
    priorite_hygiene := some 3 }

/-- A second one-off task with the same score 80 but later room and task
names. -/
def tacheTriB : Tache := { tacheTriA with nom := "balayer" }

def ligneTriA : Ligne := { tache := tacheTriA, piece := "Atelier" }

def ligneTriB : Ligne := { tache := tacheTriB, piece := "Bureau" }

def prioTriA : Priorite :=
  { tache := "aspirer", piece := "Atelier", score := 80
    raison := "Jamais fait (Ponctuel)", type := "Ponctuelle" }

def prioTriB : Priorite :=
  { tache := "balayer", piece := "Bureau", score := 80
    raison := "Jamais fait (Ponctuel)", type := "Ponctuelle" }

/-- C4 fails on the code: the audit sorts only on the score (a stable
sort in Python), with no (room, task) tie-break.  Two distinct visible rows
with equal scores keep their supply order, so supplying them as [B, A]
emits B before A even though the (room, task) pair ("Atelier", "aspirer")
of A sorts strictly before ("Bureau", "balayer") of B, and swapping the supply
order swaps the output — the output is not a function of the unordered
(room, task, score) triples. -/
theorem C4_contre_exemple :
    audit_priorites [ligneTriB, ligneTriA] meteoCalme 2 12 6 true = [prioTriB, prioTriA]
    ∧ audit_priorites [ligneTriA, ligneTriB] meteoCalme 2 12 6 true = [prioTriA, prioTriB]
    ∧ prioTriB.score = prioTriA.score
    ∧ prioTriA ≠ prioTriB
    ∧ prioTriA.piece = "Atelier" ∧ prioTriB.piece = "Bureau" := by
  refine ⟨by decide, by decide, by decide, by decide, rfl, rfl⟩

/-- C4 amended: the audit output is the visible results sorted by score
descending with a stable sort — it is a permutation of the visible
results, scores never increase along it, and within each score class the
supply order is preserved (so ties follow the order rows were supplied
in, not a (room, task) ordering, and the output depends on the supply
order). -/
theorem C4_tri_stable_par_score (lignes : List Ligne) (meteo : ContexteMeteo)
    (jour heure mois : Nat) (s : Int) :
    List.Sorted ordre_score (audit_priorites lignes meteo jour heure mois true)
    ∧ List.Perm (audit_priorites lignes meteo jour heure mois true)
        (resultats_visibles lignes meteo jour heure mois)
    ∧ (audit_priorites lignes meteo jour heure mois true).filter (fun p => p.score = s)
        = (resultats_visibles lignes meteo jour heure mois).filter (fun p => p.score = s) := by
  have htake : audit_priorites lignes meteo jour heure mois true
      = trie_par_score (resultats_visibles lignes meteo jour heure mois) := by
    simp [audit_priorites]
  rw [htake]
  exact ⟨trie_par_score_sorted _, trie_par_score_perm _, trie_par_score_filter _ s⟩

/-- C9: every entry of the audit output comes from a supplied row whose
verdict is visible, rendered by `ligne_en_priorite`; a row with a
non-visible verdict never appears. -/
theorem C9_uniquement_visibles (lignes : List Ligne) (meteo : ContexteMeteo)
    (jour heure mois : Nat) (filtre_piece : Bool) (p : Priorite)
    (hp : p ∈ audit_priorites lignes meteo jour heure mois filtre_piece) :
    ∃ ligne ∈ lignes,
      (analyser_tache ligne.tache meteo jour heure mois).visible = true
      ∧ p = ligne_en_priorite ligne (analyser_tache ligne.tache meteo jour heure mois) := by
  have hp2 : p ∈ trie_par_score (resultats_visibles lignes meteo jour heure mois) := by
    simp only [audit_priorites] at hp
    exact List.take_subset _ _ hp
  have hp3 : p ∈ resultats_visibles lignes meteo jour heure mois :=
    (trie_par_score_perm _).mem_iff.mp hp2
  simp only [resultats_visibles, List.mem_filterMap] at hp3
  obtain ⟨ligne, hmem, heq⟩ := hp3
  by_cases hv : (analyser_tache ligne.tache meteo jour heure mois).visible = true
  · refine ⟨ligne, hmem, hv, ?_⟩
    rw [if_pos hv] at heq
    exact (Option.some.inj heq).symm
  · rw [if_neg hv] at heq
    cases heq

theorem C9_uniquement_visibles_witness :
    ∃ ligne ∈ [ligneTriA],
      (analyser_tache ligne.tache meteoCalme 2 12 6).visible = true
      ∧ prioTriA = ligne_en_priorite ligne (analyser_tache ligne.tache meteoCalme 2 12 6) :=
  C9_uniquement_visibles [ligneTriA] meteoCalme 2 12 6 true prioTriA (by decide)
